import Mathlib

/-!
Verification development for the daton-ai-trading-bot risk/execution engine.

The Python sources are shallowly embedded: module-level mutable dictionaries
(`peaks`, `recently_closed`, `shared_risk_data`, `RiskManager.active_trade`)
become explicit state values threaded through the functions, network calls
become explicit outcome parameters, and an exception that the source does not
catch is modelled as `Except.error`.  Profits and prices are rationals; wall
clock timestamps are integers.
-/

namespace DatonBot

/-- Association-list lookup, modelling a Python `dict.get`. -/
def lookupKV {α : Type} : List (String × α) → String → Option α
  | [], _ => none
  | (k, v) :: rest, key => if k = key then some v else lookupKV rest key

/-- Association-list insert/replace, modelling a Python `dict[key] = val`. -/
def insertKV {α : Type} (key : String) (val : α) : List (String × α) → List (String × α)
  | [] => [(key, val)]
  | (k, v) :: rest => if k = key then (key, val) :: rest else (k, v) :: insertKV key val rest

/-- Association-list removal, modelling a Python `dict.pop(key, None)`. -/
def eraseKV {α : Type} (key : String) : List (String × α) → List (String × α)
  | [] => []
  | (k, v) :: rest => if k = key then rest else (k, v) :: eraseKV key rest

/-! ## Configuration constants (`config.py` defaults) -/

/-- `config.py` line 39: pips of peak profit required before trailing activates. -/
def ACTIVATION_THRESHOLD : ℚ := 20

/-- `config.py` line 40: pips of retracement from peak that closes the trade. -/
def TRAILING_GAP : ℚ := 10

/-- `config.py` line 42: fixed take-profit target in pips. -/
def TAKE_PROFIT_PIPS : ℚ := 70

/-- `config.py` line 41: monitor polling frequency in seconds. -/
def POLL_INTERVAL : ℤ := 60

/-- `trailing_stoploss_helper.py` line 48: cooldown for recently closed instruments. -/
def COOLDOWN_PERIOD : ℤ := POLL_INTERVAL * 5

/-- `main.py` line 25: minimum predicted pips for a viable entry signal. -/
def ENTRY_THRESHOLD_PIPS : ℚ := 50

/-- `main.py` line 26: debounce interval for the conditional entry re-trigger. -/
def CONDITIONAL_INTERVAL : ℤ := 120

/-- Python's built-in `max(a, b)`: returns `a` unless `b` is strictly greater. -/
def pymax (a b : ℚ) : ℚ := if a < b then b else a

/-- Python's built-in `abs` on our rational profit values. -/
def pyabs (q : ℚ) : ℚ := if q < 0 then -q else q

/-- Character-list version of `isPrefixOf`, used for the substring test. -/
def charsHaveStart : List Char → List Char → Bool
  | [], _ => true
  | _ :: _, [] => false
  | a :: as, b :: bs => a = b && charsHaveStart as bs

/-- `pat in s` for character lists: `pat` occurs contiguously in `s`. -/
def charsContain (pat : List Char) : List Char → Bool
  | [] => charsHaveStart pat []
  | c :: rest => charsHaveStart pat (c :: rest) || charsContain pat rest

/-- `'JPY' in inst.upper()` (substring test used throughout the sources). -/
def containsJPY (inst : String) : Bool :=
  charsContain "JPY".data (inst.data.map Char.toUpper)

/-- Pip size rule: `0.01 if 'JPY' in inst.upper() else 0.0001`. -/
def pipSize (inst : String) : ℚ := if containsJPY inst then 1 / 100 else 1 / 10000

/-- Structural equality test for `Except`, so concrete monitor-cycle results
can be settled by `decide`. -/
instance instDecEqExcept {ε α : Type} [DecidableEq ε] [DecidableEq α] :
    DecidableEq (Except ε α)
  | .error a, .error b =>
    if h : a = b then .isTrue (by rw [h]) else .isFalse (by simp [h])
  | .error _, .ok _ => .isFalse (by simp)
  | .ok _, .error _ => .isFalse (by simp)
  | .ok a, .ok b =>
    if h : a = b then .isTrue (by rw [h]) else .isFalse (by simp [h])

/-! ## Data model -/

/-- One open trade as reported by the broker's `openTrades` endpoint
(fields used by the sources: `id`, `instrument`, `price`, `currentUnits`,
`initialUnits`). -/
structure Trade where
  id : String
  instrument : String
  price : ℚ
  currentUnits : ℚ
  initialUnits : ℤ
  deriving DecidableEq

/-- `RiskManager`'s per-position record (`risk_managment.py` line 73):
`{'trade_id': …, 'instrument': …, 'entry_price': …, 'side': …}`. -/
inductive Side where
  | long
  | short
  deriving DecidableEq

structure ActiveTrade where
  trade_id : String
  instrument : String
  entry_price : ℚ
  side : Side
  deriving DecidableEq

/-- The process-global mutable state read and written by the trailing-stop
monitor: `peaks` (trade_id → highest profit seen), `recently_closed`
(instrument → close timestamp), and `shared_risk_data`'s
`predicted_profit_pips` entries (instrument → pips). -/
structure MonitorState where
  peaks : List (String × ℚ)
  recentlyClosed : List (String × ℤ)
  sharedProfit : List (String × ℚ)
  deriving DecidableEq

def emptyMonitorState : MonitorState := ⟨[], [], []⟩

/-- Outcome of one price fetch by `risk_managment.fetch_current_price`:
a mid price, `None` (HTTP 200 with an empty `prices` payload, lines 54-55),
or a raised exception (`resp.raise_for_status()` on line 52 — the function
has no `try`/`except`). -/
inductive FetchResult where
  | price (p : ℚ)
  | empty
  | err
  deriving DecidableEq

/-- Outcome of the open-trades fetch (`risk_managment.fetch_open_trades`). -/
inductive TradesFetchResult where
  | ok (trades : List Trade)
  | err
  deriving DecidableEq

/-- `risk_managment.py` lines 38-46: the open-trades fetch catches every
exception and returns the empty list. -/
def fetch_open_trades : TradesFetchResult → List Trade
  | .ok trades => trades
  | .err => []

/-! ## Exit engine: `trailing_stoploss_helper.live_trailing_stop_monitor` -/

/-- What the monitor did with one position in one cycle, carrying the values
the source logs: the profit at a take-profit close, the stored new peak on a
holding step, and the peak and retracement at a trailing-stop close. -/
inductive Outcome where
  | skippedCooldown
  | skippedNoPrice
  | closedTP (profit : ℚ)
  | holdStep (newPeak : ℚ)
  | closedTrail (newPeak retrace : ℚ)
  deriving DecidableEq

/-- True exactly on a holding (no-close, no-skip) step. -/
def isHold : Outcome → Bool
  | .holdStep _ => true
  | _ => false

/-- `trailing_stoploss_helper.py` line 87:
`inst in recently_closed and (time.time() - recently_closed[inst]) < COOLDOWN_PERIOD`. -/
def inCooldown (now : ℤ) (recentlyClosed : List (String × ℤ)) (inst : String) : Bool :=
  match lookupKV recentlyClosed inst with
  | some ts => now - ts < COOLDOWN_PERIOD
  | none => false

/-- `trailing_stoploss_helper.close_trade_by_id` (lines 56-65): issue the
close request, start the cooldown, delete the peak, clear the shared profit
cache entry. -/
def close_trade_by_id (now : ℤ) (trade_id instrument : String) (s : MonitorState) :
    MonitorState :=
  { peaks := eraseKV trade_id s.peaks
    recentlyClosed := insertKV instrument now s.recentlyClosed
    sharedProfit := eraseKV instrument s.sharedProfit }

/-- Result of the profit determination for one position (monitor lines 91-105):
a profit in pips, "no price" (fetch returned `None`, position skipped), or a
raised exception from `fetch_current_price`. -/
inductive ProfitResult where
  | got (p : ℚ)
  | noPrice
  | raised
  deriving DecidableEq

/-- Monitor lines 91-105: prefer the shared cache value for the instrument;
otherwise compute `(current - entry) / pip_size`, sign flipped when units are
not positive, from a freshly fetched price. -/
def determine_profit (fetch : String → FetchResult) (s : MonitorState) (t : Trade) :
    ProfitResult :=
  match lookupKV s.sharedProfit t.instrument with
  | some v => .got v
  | none =>
    match fetch t.instrument with
    | .err => .raised
    | .empty => .noPrice
    | .price current =>
      if 0 < t.currentUnits then .got ((current - t.price) / pipSize t.instrument)
      else .got ((t.price - current) / pipSize t.instrument)

/-- The body of the `for t in trades` loop of `live_trailing_stop_monitor`
(lines 82-133) for a single position.  `Except.error ()` models an exception
raised by `fetch_current_price` escaping the loop, which has no handler. -/
def monitor_trade_step (now : ℤ) (fetch : String → FetchResult) (s : MonitorState)
    (t : Trade) : Except Unit (MonitorState × Outcome) :=
  if inCooldown now s.recentlyClosed t.instrument then .ok (s, .skippedCooldown)
  else
    match determine_profit fetch s t with
    | .raised => .error ()
    | .noPrice => .ok (s, .skippedNoPrice)
    | .got profit =>
      if TAKE_PROFIT_PIPS ≤ profit then
        .ok (close_trade_by_id now t.id t.instrument s, .closedTP profit)
      else
        let oldPeak := (lookupKV s.peaks t.id).getD profit
        let newPeak := pymax oldPeak profit
        let s1 : MonitorState := { s with peaks := insertKV t.id newPeak s.peaks }
        if ACTIVATION_THRESHOLD ≤ newPeak then
          if TRAILING_GAP ≤ newPeak - profit then
            .ok (close_trade_by_id now t.id t.instrument s1,
                 .closedTrail newPeak (newPeak - profit))
          else .ok (s1, .holdStep newPeak)
        else .ok (s1, .holdStep newPeak)

/-- One full pass of the monitor over the fetched open-trades list.  An
uncaught exception in any step aborts the whole cycle (and, in the source,
the monitor thread). -/
def monitor_cycle (now : ℤ) (fetch : String → FetchResult) :
    MonitorState → List Trade → Except Unit (MonitorState × List Outcome)
  | s, [] => .ok (s, [])
  | s, t :: ts =>
    match monitor_trade_step now fetch s t with
    | .error e => .error e
    | .ok (s', o) =>
      match monitor_cycle now fetch s' ts with
      | .error e => .error e
      | .ok (s'', os) => .ok (s'', o :: os)

/-- One position observed across successive monitor cycles: before each cycle
the profit monitor has published profit `p` for the instrument into the shared
cache (`trade_profit_monitor.fetch_trade_data` line 119), and the trailing
monitor then evaluates the position.  The `Except.error` branch (unreachable
when the profit comes from the shared cache) ends the run, as the source
thread would die. -/
def run_profit_seq (now : ℤ) (t : Trade) (s : MonitorState) :
    List ℚ → MonitorState × List Outcome
  | [] => (s, [])
  | p :: ps =>
    match monitor_trade_step now (fun _ => FetchResult.empty)
        ⟨s.peaks, s.recentlyClosed, insertKV t.instrument p s.sharedProfit⟩ t with
    | .error _ => (⟨s.peaks, s.recentlyClosed, insertKV t.instrument p s.sharedProfit⟩, [])
    | .ok (s2, o) =>
      let r := run_profit_seq now t s2 ps
      (r.1, o :: r.2)

/-- Running maxima continuing from an already-stored peak `m`:
element `k` is `max m (ps.take (k+1))`. -/
def runningMaxesFrom (m : ℚ) : List ℚ → List ℚ
  | [] => []
  | p :: ps => max m p :: runningMaxesFrom (max m p) ps

/-- Running maxima of a profit sequence: element `k` is `max (p0 .. pk)`. -/
def runningMaxes : List ℚ → List ℚ
  | [] => []
  | p :: ps => p :: runningMaxesFrom p ps

/-! ## Entry aggregator: `main.job_multiframe` / `risk_managment.conditional_entry` -/

/-- A prediction from `pinhead_indicator.generate_multiframe_signal`
(`pinhead_indicator.py` lines 209-215). -/
inductive SigKind where
  | buy
  | sell
  | hold
  deriving DecidableEq

structure Signal where
  instrument : String
  timeframe : String
  signal : SigKind
  predicted_pips : ℚ
  trailing_pips : ℚ
  deriving DecidableEq

/-- `RiskManager.get_live_positions` (`risk_managment.py` lines 65-80):
rebuild the instrument-keyed position dict from a fresh open-trades fetch;
side is long exactly when `initialUnits > 0`. -/
def get_live_positions (trades : List Trade) : List (String × ActiveTrade) :=
  trades.foldl
    (fun acc t =>
      insertKV t.instrument
        ⟨t.id, t.instrument, t.price, if 0 < t.initialUnits then Side.long else Side.short⟩
        acc)
    []

/-- Python's `max(viable, key=lambda x: abs(x.predicted_pips))`: first
maximal element wins on ties (a later candidate replaces the current best
only when strictly greater). -/
def maxByAbsPips : List Signal → Option Signal
  | [] => none
  | s :: rest =>
    some (rest.foldl
      (fun best x => if pyabs best.predicted_pips < pyabs x.predicted_pips then x else best) s)

/-- What one invocation of the entry job did: the open order it issued
(instrument and side of `rm.confirm_trade`), and whether it requested
predictions from the signal generator at all. -/
structure EntryResult where
  order : Option (String × Side)
  signalsRequested : Bool
  deriving DecidableEq

/-- `main.job_multiframe` (lines 96-118).  `positions` is the freshly fetched
ground-truth open-trades list and `signals` the collaborator's predictions for
the instrument universe.  The entry job reads no cooldown state: neither
`main.py` nor `risk_managment.conditional_entry` imports or consults
`recently_closed`, so the `recentlyClosed` and `now` parameters — the
process-global cooldown map and clock — are ignored by the body. -/
def job_multiframe (enabled : Bool) (recentlyClosed : List (String × ℤ)) (now : ℤ)
    (positions : List Trade) (signals : List Signal) : EntryResult :=
  if !enabled then ⟨none, false⟩
  else if (get_live_positions positions).isEmpty then
    let viable := signals.filter (fun s => ENTRY_THRESHOLD_PIPS ≤ pyabs s.predicted_pips)
    match maxByAbsPips viable with
    | some best =>
      ⟨some (best.instrument, if best.signal = SigKind.buy then Side.long else Side.short),
       true⟩
    | none => ⟨none, true⟩
  else ⟨none, false⟩

/-! ## Risk manager: `RiskManager.update_all_positions` and `main.job_risk_management` -/

/-- `RiskManager.update_all_positions` (`risk_managment.py` lines 128-144):
recompute the active trade's profit from the supplied price dict and
auto-close at `profit >= 70` or `profit <= -50`.  Returns the new
`active_trade` and the trade id of the close it issued, if any. -/
def update_all_positions (active : Option ActiveTrade) (prices : String → Option ℚ) :
    Option ActiveTrade × Option String :=
  match active with
  | none => (none, none)
  | some a =>
    match prices a.instrument with
    | none => (some a, none)
    | some cp =>
      let pip := pipSize a.instrument
      let profit := if a.side = Side.long then (cp - a.entry_price) / pip
                    else (a.entry_price - cp) / pip
      if 70 ≤ profit ∨ profit ≤ -50 then (none, some a.trade_id)
      else (some a, none)

/-- `update_all_positions` together with the monitor-owned global state:
the method body references none of `peaks`, `recently_closed` or
`shared_risk_data` (its close path is `RiskManager.close_trade_by_id`,
lines 120-126, a bare HTTP request), so that state is returned unchanged. -/
def update_all_positions_proc (ms : MonitorState) (active : Option ActiveTrade)
    (prices : String → Option ℚ) :
    MonitorState × (Option ActiveTrade × Option String) :=
  (ms, update_all_positions active prices)

/-- `main.job_risk_management` (lines 121-134): gate on the connection flag,
update the active position, then conditionally re-trigger the entry job when
no position is open and the debounce interval has elapsed.  Returns the new
`active_trade`, the close issued (if any), the entry job's result, and the new
`last_entry_time`. -/
def job_risk_management (enabled : Bool) (active : Option ActiveTrade)
    (prices : String → Option ℚ) (positions : List Trade) (signals : List Signal)
    (now lastEntryTime : ℤ) (recentlyClosed : List (String × ℤ)) :
    Option ActiveTrade × Option String × EntryResult × ℤ :=
  if !enabled then (active, none, ⟨none, false⟩, lastEntryTime)
  else
    let u := update_all_positions active prices
    if (get_live_positions positions).isEmpty then
      if CONDITIONAL_INTERVAL ≤ now - lastEntryTime then
        (u.1, u.2, job_multiframe enabled recentlyClosed now positions signals, now)
      else (u.1, u.2, ⟨none, false⟩, lastEntryTime)
    else (u.1, u.2, ⟨none, false⟩, lastEntryTime)

/-! ## Supervisor: `main.check_connection` and `main.ConnectionMonitor` -/

/-- `main.check_connection` (lines 44-56): on a successful heartbeat set
`enabled := True`; on failure set `enabled := False` and re-raise.  Returns
the new flag and whether the exception was raised. -/
def check_connection (enabled : Bool) (heartbeatOk : Bool) : Bool × Bool :=
  if heartbeatOk then (true, false) else (false, true)

/-- One iteration of `ConnectionMonitor.run` (`main.py` lines 86-93): the
exception from `check_connection` is caught here and `reconnect` is invoked,
so the heartbeat thread itself never dies.  Returns the new flag and whether
`reconnect` was invoked. -/
def connection_monitor_step (enabled : Bool) (heartbeatOk : Bool) : Bool × Bool :=
  let r := check_connection enabled heartbeatOk
  (r.1, r.2)

/-! ## Concrete instances used in closed theorems and witnesses -/

/-- A failing price feed: every fetch attempt raises. -/
def errFetch : String → FetchResult := fun _ => FetchResult.err

def tC5 : Trade := ⟨"T5", "EUR_USD", 11 / 10, 1000, 1000⟩

def wTrade3 : Trade := ⟨"T3", "EUR_USD", 11 / 10, 1000, 1000⟩

def wTrade1 : Trade := ⟨"W1", "USD_CAD", 7 / 5, 1000, 1000⟩

def wSig1 : Signal := ⟨"GBP_USD", "H1", SigKind.sell, -60, 1⟩

def sigC2 : Signal := ⟨"EUR_USD", "M5", SigKind.buy, 60, 1⟩

def ms6 : MonitorState := ⟨[("101", 12)], [], [("EUR_USD", 33)]⟩

def at6 : ActiveTrade := ⟨"101", "EUR_USD", 1, Side.long⟩

def prices6 : String → Option ℚ := fun i => if i = "EUR_USD" then some (1007 / 1000) else none

def t7 : Trade := ⟨"T7", "GBP_USD", 13 / 10, 1000, 1000⟩

def t7b : Trade := ⟨"T7B", "AUD_USD", 3 / 5, 1000, 1000⟩

def s7 : MonitorState := ⟨[("T7", 8)], [], []⟩

def wTrade7 : Trade := ⟨"W7", "USD_CHF", 1, 1000, 1000⟩

def t8 : Trade := ⟨"T8", "NZD_USD", 3 / 5, 500, 500⟩

def t8b : Trade := ⟨"T8B", "USD_CAD", 7 / 5, 500, 500⟩

def wTrade4 : Trade := ⟨"T4", "EUR_USD", 11 / 10, 1000, 1000⟩

def sW4 : MonitorState := ⟨[("T4", 50)], [], [("EUR_USD", 75)]⟩

def wTrade10 : Trade := ⟨"T0", "EUR_USD", 1, 1000, 1000⟩

def sW10 : MonitorState := ⟨[("T0", 5)], [("EUR_USD", 50)], [("EUR_USD", 80)]⟩

/-! ## Helper lemmas -/

lemma pymax_eq_max (a b : ℚ) : pymax a b = max a b := by
  unfold pymax
  rcases lt_or_le a b with h | h
  · rw [if_pos h, max_eq_right h.le]
  · rw [if_neg (not_lt.2 h), max_eq_left h]

@[simp] lemma lookupKV_nil {α : Type} (key : String) : lookupKV ([] : List (String × α)) key = none := rfl

@[simp] lemma lookupKV_insert_self {α : Type} (key : String) (v : α)
    (l : List (String × α)) : lookupKV (insertKV key v l) key = some v := by
  induction l with
  | nil => simp [insertKV, lookupKV]
  | cons hd tl ih =>
    obtain ⟨k, w⟩ := hd
    by_cases h : k = key
    · simp [insertKV, lookupKV, h]
    · simp [insertKV, lookupKV, h, ih]

lemma insertKV_ne_nil {α : Type} (key : String) (v : α) (l : List (String × α)) :
    insertKV key v l ≠ [] := by
  cases l with
  | nil => simp [insertKV]
  | cons hd tl =>
    obtain ⟨k, w⟩ := hd
    by_cases h : k = key <;> simp [insertKV, h]

lemma get_live_positions_ne_nil (t : Trade) (ts : List Trade) :
    get_live_positions (t :: ts) ≠ [] := by
  have h : ∀ (rest : List Trade) (acc : List (String × ActiveTrade)), acc ≠ [] →
      rest.foldl (fun acc u =>
        insertKV u.instrument
          ⟨u.id, u.instrument, u.price, if 0 < u.initialUnits then Side.long else Side.short⟩
          acc) acc ≠ [] := by
    intro rest
    induction rest with
    | nil => intro acc hacc; simpa using hacc
    | cons x xs ih =>
      intro acc _
      rw [List.foldl_cons]
      exact ih _ (insertKV_ne_nil _ _ _)
  unfold get_live_positions
  rw [List.foldl_cons]
  exact h ts _ (insertKV_ne_nil _ _ _)

lemma inCooldown_nil (now : ℤ) (inst : String) : inCooldown now [] inst = false := rfl

lemma monitor_trade_step_shared_tp (now : ℤ) (fetch : String → FetchResult)
    (s : MonitorState) (t : Trade) (p : ℚ)
    (hrc : s.recentlyClosed = [])
    (hsh : lookupKV s.sharedProfit t.instrument = some p)
    (hTP : TAKE_PROFIT_PIPS ≤ p) :
    monitor_trade_step now fetch s t
      = .ok (close_trade_by_id now t.id t.instrument s, .closedTP p) := by
  simp [monitor_trade_step, determine_profit, inCooldown, hrc, hsh, hTP]

lemma monitor_trade_step_shared_hold (now : ℤ) (fetch : String → FetchResult)
    (s : MonitorState) (t : Trade) (p m : ℚ)
    (hrc : s.recentlyClosed = [])
    (hsh : lookupKV s.sharedProfit t.instrument = some p)
    (hm : (lookupKV s.peaks t.id).getD p = m)
    (hTP : ¬ TAKE_PROFIT_PIPS ≤ p)
    (hTR : ¬ (ACTIVATION_THRESHOLD ≤ max m p ∧ TRAILING_GAP ≤ max m p - p)) :
    monitor_trade_step now fetch s t
      = .ok (⟨insertKV t.id (max m p) s.peaks, s.recentlyClosed, s.sharedProfit⟩,
             .holdStep (max m p)) := by
  rcases Classical.em (ACTIVATION_THRESHOLD ≤ max m p) with hA | hA
  · have hB : ¬ TRAILING_GAP ≤ max m p - p := fun hb => hTR ⟨hA, hb⟩
    simp [monitor_trade_step, determine_profit, inCooldown, hrc, hsh, hm, pymax_eq_max,
      hTP, hA, hB]
  · simp [monitor_trade_step, determine_profit, inCooldown, hrc, hsh, hm, pymax_eq_max,
      hTP, hA]

lemma monitor_trade_step_shared_trail (now : ℤ) (fetch : String → FetchResult)
    (s : MonitorState) (t : Trade) (p m : ℚ)
    (hrc : s.recentlyClosed = [])
    (hsh : lookupKV s.sharedProfit t.instrument = some p)
    (hm : (lookupKV s.peaks t.id).getD p = m)
    (hTP : ¬ TAKE_PROFIT_PIPS ≤ p)
    (hA : ACTIVATION_THRESHOLD ≤ max m p)
    (hB : TRAILING_GAP ≤ max m p - p) :
    monitor_trade_step now fetch s t
      = .ok (close_trade_by_id now t.id t.instrument
              ⟨insertKV t.id (max m p) s.peaks, s.recentlyClosed, s.sharedProfit⟩,
             .closedTrail (max m p) (max m p - p)) := by
  simp [monitor_trade_step, determine_profit, inCooldown, hrc, hsh, hm, pymax_eq_max,
    hTP, hA, hB]

lemma runningMaxesFrom_getElem (ps : List ℚ) :
    ∀ (m : ℚ) (k : ℕ), k < ps.length →
      (runningMaxesFrom m ps)[k]? = some ((ps.take (k + 1)).foldl max m) := by
  induction ps with
  | nil => intro m k hk; simp at hk
  | cons p ps ih =>
    intro m k hk
    cases k with
    | zero => simp [runningMaxesFrom]
    | succ j =>
      have hj : j < ps.length := by simpa using hk
      simp [runningMaxesFrom, ih (max m p) j hj]

lemma chain_runningMaxesFrom (ps : List ℚ) :
    ∀ m : ℚ, List.Chain' (· ≤ ·) (m :: runningMaxesFrom m ps) := by
  induction ps with
  | nil => intro m; simp [runningMaxesFrom]
  | cons p ps ih =>
    intro m
    rw [runningMaxesFrom]
    exact List.chain'_cons.2 ⟨le_max_left m p, ih (max m p)⟩

/-- Fold invariant for a run whose every step holds: starting from a state with
stored peak `m`, empty cooldown map, the outcomes are the running maxima and the
final stored peak is the max of `m` and all observed profits. -/
lemma run_profit_seq_hold_invariant (now : ℤ) (t : Trade) :
    ∀ (ps : List ℚ) (s : MonitorState) (m : ℚ),
      s.recentlyClosed = [] →
      lookupKV s.peaks t.id = some m →
      (run_profit_seq now t s ps).2.all isHold = true →
      (run_profit_seq now t s ps).2 = (runningMaxesFrom m ps).map Outcome.holdStep
      ∧ lookupKV (run_profit_seq now t s ps).1.peaks t.id = some (ps.foldl max m)
      ∧ (run_profit_seq now t s ps).1.recentlyClosed = [] := by
  intro ps
  induction ps with
  | nil =>
    intro s m hrc hpk _
    exact ⟨rfl, by simpa [run_profit_seq] using hpk, by simpa [run_profit_seq] using hrc⟩
  | cons p ps ih =>
    intro s m hrc hpk hall
    have hsh : lookupKV
        ((⟨s.peaks, s.recentlyClosed, insertKV t.instrument p s.sharedProfit⟩ :
          MonitorState)).sharedProfit t.instrument = some p := lookupKV_insert_self _ _ _
    have hrc1 : ((⟨s.peaks, s.recentlyClosed, insertKV t.instrument p s.sharedProfit⟩ :
        MonitorState)).recentlyClosed = [] := hrc
    have hm1 : (lookupKV ((⟨s.peaks, s.recentlyClosed,
        insertKV t.instrument p s.sharedProfit⟩ : MonitorState)).peaks t.id).getD p = m := by
      show (lookupKV s.peaks t.id).getD p = m
      rw [hpk]; rfl
    by_cases hTP : TAKE_PROFIT_PIPS ≤ p
    · exfalso
      have hstep := monitor_trade_step_shared_tp now (fun _ => FetchResult.empty)
        ⟨s.peaks, s.recentlyClosed, insertKV t.instrument p s.sharedProfit⟩ t p hrc1 hsh hTP
      simp only [run_profit_seq, hstep] at hall
      simp [isHold] at hall
    · by_cases hTR : ACTIVATION_THRESHOLD ≤ max m p ∧ TRAILING_GAP ≤ max m p - p
      · exfalso
        have hstep := monitor_trade_step_shared_trail now (fun _ => FetchResult.empty)
          ⟨s.peaks, s.recentlyClosed, insertKV t.instrument p s.sharedProfit⟩ t p m
          hrc1 hsh hm1 hTP hTR.1 hTR.2
        simp only [run_profit_seq, hstep] at hall
        simp [isHold] at hall
      · have hstep := monitor_trade_step_shared_hold now (fun _ => FetchResult.empty)
          ⟨s.peaks, s.recentlyClosed, insertKV t.instrument p s.sharedProfit⟩ t p m
          hrc1 hsh hm1 hTP hTR
        simp only [run_profit_seq, hstep] at hall ⊢
        simp only [List.all_cons, isHold, Bool.true_and] at hall
        have hrc2 : ((⟨insertKV t.id (max m p) s.peaks, s.recentlyClosed,
            insertKV t.instrument p s.sharedProfit⟩ : MonitorState)).recentlyClosed = [] := hrc
        have hpk2 : lookupKV ((⟨insertKV t.id (max m p) s.peaks, s.recentlyClosed,
            insertKV t.instrument p s.sharedProfit⟩ : MonitorState)).peaks t.id
            = some (max m p) := lookupKV_insert_self _ _ _
        obtain ⟨h1, h2, h3⟩ := ih _ (max m p) hrc2 hpk2 hall
        refine ⟨?_, ?_, ?_⟩
        · simp only [runningMaxesFrom, List.map_cons]
          exact congrArg _ h1
        · simpa [List.foldl_cons] using h2
        · exact h3

/-! ## Claim theorems -/

/-- C3: for a fixed trade and profit sequence `p0 :: rest` in which every
evaluation reaches the peak-update step and holds (no close fires), the
monitor's outcome at step `k` records exactly the running maximum
`max (p0 .. pk)` as the stored peak, the stored peak after the run is
`max (p0 .. pn)`, the recorded peak at step `k` equals the maximum of the
first `k+1` profits, and the sequence of recorded peaks never decreases.
The peak entry is removed only by `close_trade_by_id` when the trade
closes, which does not happen on a holding run. -/
theorem peak_equals_running_max (now : ℤ) (t : Trade) (p0 : ℚ) (rest : List ℚ)
    (hall : (run_profit_seq now t emptyMonitorState (p0 :: rest)).2.all isHold = true) :
    (run_profit_seq now t emptyMonitorState (p0 :: rest)).2
        = (runningMaxes (p0 :: rest)).map Outcome.holdStep
    ∧ lookupKV (run_profit_seq now t emptyMonitorState (p0 :: rest)).1.peaks t.id
        = some (rest.foldl max p0)
    ∧ (∀ k, k < rest.length + 1 →
        (runningMaxes (p0 :: rest))[k]? = some ((rest.take k).foldl max p0))
    ∧ List.Chain' (· ≤ ·) (runningMaxes (p0 :: rest)) := by
  have hsh : lookupKV ((⟨emptyMonitorState.peaks, emptyMonitorState.recentlyClosed,
      insertKV t.instrument p0 emptyMonitorState.sharedProfit⟩ : MonitorState)).sharedProfit
      t.instrument = some p0 := lookupKV_insert_self _ _ _
  have hrc1 : ((⟨emptyMonitorState.peaks, emptyMonitorState.recentlyClosed,
      insertKV t.instrument p0 emptyMonitorState.sharedProfit⟩ :
      MonitorState)).recentlyClosed = [] := rfl
  have hm1 : (lookupKV ((⟨emptyMonitorState.peaks, emptyMonitorState.recentlyClosed,
      insertKV t.instrument p0 emptyMonitorState.sharedProfit⟩ :
      MonitorState)).peaks t.id).getD p0 = p0 := rfl
  by_cases hTP : TAKE_PROFIT_PIPS ≤ p0
  · exfalso
    have hstep := monitor_trade_step_shared_tp now (fun _ => FetchResult.empty)
      ⟨emptyMonitorState.peaks, emptyMonitorState.recentlyClosed,
        insertKV t.instrument p0 emptyMonitorState.sharedProfit⟩ t p0 hrc1 hsh hTP
    simp only [run_profit_seq, hstep] at hall
    simp [isHold] at hall
  · have hTR : ¬ (ACTIVATION_THRESHOLD ≤ max p0 p0 ∧ TRAILING_GAP ≤ max p0 p0 - p0) := by
      rintro ⟨-, hb⟩
      rw [max_self, sub_self] at hb
      exact absurd hb (by norm_num [TRAILING_GAP])
    have hstep := monitor_trade_step_shared_hold now (fun _ => FetchResult.empty)
      ⟨emptyMonitorState.peaks, emptyMonitorState.recentlyClosed,
        insertKV t.instrument p0 emptyMonitorState.sharedProfit⟩ t p0 p0 hrc1 hsh hm1 hTP hTR
    rw [max_self] at hstep
    simp only [run_profit_seq, hstep] at hall ⊢
    simp only [List.all_cons, isHold, Bool.true_and] at hall
    obtain ⟨h1, h2, h3⟩ := run_profit_seq_hold_invariant now t rest
      ⟨insertKV t.id p0 emptyMonitorState.peaks, emptyMonitorState.recentlyClosed,
        insertKV t.instrument p0 emptyMonitorState.sharedProfit⟩ p0
      rfl (lookupKV_insert_self _ _ _) hall
    refine ⟨?_, ?_, ?_, ?_⟩
    · simp only [runningMaxes, List.map_cons]
      exact congrArg _ h1
    · exact h2
    · intro k hk
      cases k with
      | zero => simp [runningMaxes]
      | succ j =>
        have hj : j < rest.length := by omega
        simpa [runningMaxes] using runningMaxesFrom_getElem rest p0 j hj
    · rw [runningMaxes]
      exact chain_runningMaxesFrom rest p0

/-- C3 witness: the theorem applied to the holding profit sequence
`[5, 25, 30]` (peaks `5, 25, 30`). -/
theorem peak_equals_running_max_witness :
    ((run_profit_seq 0 wTrade3 emptyMonitorState [5, 25, 30]).2.all isHold = true)
    ∧ ((run_profit_seq 0 wTrade3 emptyMonitorState [5, 25, 30]).2
        = (runningMaxes [5, 25, 30]).map Outcome.holdStep
      ∧ lookupKV (run_profit_seq 0 wTrade3 emptyMonitorState [5, 25, 30]).1.peaks wTrade3.id
        = some ([25, 30].foldl max 5)
      ∧ (∀ k, k < [(25 : ℚ), 30].length + 1 →
          (runningMaxes [5, 25, 30])[k]? = some (([25, 30].take k).foldl max 5))
      ∧ List.Chain' (· ≤ ·) (runningMaxes [5, 25, 30])) :=
  ⟨by norm_num [run_profit_seq, monitor_trade_step, determine_profit, inCooldown,
      close_trade_by_id, lookupKV, insertKV, eraseKV, pymax, emptyMonitorState, wTrade3,
      isHold, TAKE_PROFIT_PIPS, ACTIVATION_THRESHOLD, TRAILING_GAP],
   peak_equals_running_max 0 wTrade3 5 [25, 30]
     (by norm_num [run_profit_seq, monitor_trade_step, determine_profit, inCooldown,
        close_trade_by_id, lookupKV, insertKV, eraseKV, pymax, emptyMonitorState, wTrade3,
        isHold, TAKE_PROFIT_PIPS, ACTIVATION_THRESHOLD, TRAILING_GAP])⟩

/-- C1: whenever the freshly fetched ground-truth open-position list is
non-empty, `job_multiframe` issues no open order and requests no predictions,
on every invocation; the check reads the fetched list, not a cached flag. -/
theorem single_position_no_entry (enabled : Bool) (recentlyClosed : List (String × ℤ))
    (now : ℤ) (positions : List Trade) (signals : List Signal)
    (h : positions ≠ []) :
    job_multiframe enabled recentlyClosed now positions signals = ⟨none, false⟩ := by
  cases enabled with
  | false => rfl
  | true =>
    obtain ⟨t, ts, rfl⟩ := List.exists_cons_of_ne_nil h
    have hne := get_live_positions_ne_nil t ts
    have hemp : (get_live_positions (t :: ts)).isEmpty = false := by
      cases hgl : get_live_positions (t :: ts) with
      | nil => exact absurd hgl hne
      | cons a l => rfl
    simp [job_multiframe, hemp]

/-- C1 witness: with one open position reported and a qualifying signal on
offer, the entry job is a no-op. -/
theorem single_position_no_entry_witness :
    ([wTrade1] ≠ ([] : List Trade))
    ∧ job_multiframe true [] 0 [wTrade1] [wSig1] = ⟨none, false⟩ :=
  ⟨by simp, single_position_no_entry true [] 0 [wTrade1] [wSig1] (by simp)⟩

/-- C2 (failing input): instrument EUR_USD was closed at time 1000 and its
cooldown (300 s) is still active at time 1100, yet `job_multiframe` — which
consults no cooldown state — places the EUR_USD order for the qualifying
60-pip signal.  The spec requires the entry to be suppressed until expiry. -/
theorem entry_ignores_cooldown :
    inCooldown 1100 [("EUR_USD", (1000 : ℤ))] "EUR_USD" = true
    ∧ job_multiframe true [("EUR_USD", (1000 : ℤ))] 1100 [] [sigC2]
      = ⟨some ("EUR_USD", Side.long), true⟩ := by decide

/-- C4: when the determined profit reaches `TAKE_PROFIT_PIPS`, the monitor
closes the trade with the take-profit outcome and executes neither the
peak-update nor the trailing-retracement logic: the resulting state is
exactly `close_trade_by_id` applied to the unmodified incoming state. -/
theorem take_profit_precedence (now : ℤ) (fetch : String → FetchResult)
    (s : MonitorState) (t : Trade) (p : ℚ)
    (hcd : inCooldown now s.recentlyClosed t.instrument = false)
    (hp : determine_profit fetch s t = ProfitResult.got p)
    (htp : TAKE_PROFIT_PIPS ≤ p) :
    monitor_trade_step now fetch s t
      = Except.ok (close_trade_by_id now t.id t.instrument s, Outcome.closedTP p) := by
  simp [monitor_trade_step, hcd, hp, htp]

/-- C4 witness: profit 75 observed with `TAKE_PROFIT_PIPS = 70` and a prior
peak of 50 on record: take-profit close, no trailing evaluation. -/
theorem take_profit_precedence_witness :
    inCooldown 0 sW4.recentlyClosed wTrade4.instrument = false
    ∧ determine_profit (fun _ => FetchResult.empty) sW4 wTrade4 = ProfitResult.got 75
    ∧ TAKE_PROFIT_PIPS ≤ (75 : ℚ)
    ∧ monitor_trade_step 0 (fun _ => FetchResult.empty) sW4 wTrade4
      = Except.ok (close_trade_by_id 0 wTrade4.id wTrade4.instrument sW4, Outcome.closedTP 75) :=
  ⟨rfl, rfl, by norm_num [TAKE_PROFIT_PIPS],
   take_profit_precedence 0 (fun _ => FetchResult.empty) sW4 wTrade4 75 rfl rfl
     (by norm_num [TAKE_PROFIT_PIPS])⟩

/-- C5: for the profit sequence `[5, 25, 30, 18]` with the configured
`ACTIVATION_THRESHOLD = 20`, `TRAILING_GAP = 10`, `TAKE_PROFIT_PIPS = 70`,
the recorded peaks are `5, 25, 30, 30`, steps 1-3 hold, and step 4 closes
with the trailing-stop outcome at retracement `30 - 18 = 12`; activation is
re-derived from the stored peak each cycle (the peak stays at 30 although
profit fell to 18). -/
theorem trailing_trigger_example :
    (run_profit_seq 100 tC5 emptyMonitorState [5, 25, 30, 18]).2
      = [Outcome.holdStep 5, Outcome.holdStep 25, Outcome.holdStep 30,
         Outcome.closedTrail 30 12]
    ∧ lookupKV (run_profit_seq 100 tC5 emptyMonitorState [5]).1.peaks tC5.id = some 5
    ∧ lookupKV (run_profit_seq 100 tC5 emptyMonitorState [5, 25]).1.peaks tC5.id = some 25
    ∧ lookupKV (run_profit_seq 100 tC5 emptyMonitorState [5, 25, 30]).1.peaks tC5.id = some 30
    ∧ (run_profit_seq 100 tC5 emptyMonitorState [5, 25, 30, 18]).1
      = (⟨[], [("EUR_USD", 100)], []⟩ : MonitorState) := by
  norm_num [run_profit_seq, monitor_trade_step, determine_profit, inCooldown,
    close_trade_by_id, lookupKV, insertKV, eraseKV, pymax, emptyMonitorState, tC5,
    TAKE_PROFIT_PIPS, ACTIVATION_THRESHOLD, TRAILING_GAP]

/-- C6 (failing input): `RiskManager.update_all_positions` observes profit
70 on trade 101 (entry 1.0, price 1.007, EUR_USD) and issues a close, but
the monitor-owned state is untouched: the SharedProfitCache entry for
EUR_USD (33) survives, no cooldown is registered, and the peak for trade 101
(12) is not deleted — unlike the trailing monitor's own close path
(`close_trade_by_id`), which clears all three. -/
theorem risk_close_leaves_monitor_state :
    update_all_positions_proc ms6 (some at6) prices6 = (ms6, none, some "101")
    ∧ lookupKV ms6.sharedProfit "EUR_USD" = some 33
    ∧ lookupKV ms6.peaks "101" = some 12
    ∧ ms6.recentlyClosed = []
    ∧ close_trade_by_id 500 "101" "EUR_USD" ms6
      = (⟨[], [("EUR_USD", 500)], []⟩ : MonitorState) := by
  refine ⟨?_, rfl, rfl, rfl, rfl⟩
  have hpip : pipSize "EUR_USD" = 1 / 10000 := rfl
  norm_num [update_all_positions_proc, update_all_positions, at6, prices6, ms6, hpip]

/-- C7 counterexample: with no shared profit available, a raising price
fetch does not merely skip the position — the exception escapes the monitor
step, and the whole cycle (including the second position, never evaluated)
aborts, refuting "every price-fetch failure skips just that position". -/
theorem fetch_error_aborts_cycle :
    monitor_trade_step 0 errFetch s7 t7 = Except.error ()
    ∧ monitor_trade_step 0 errFetch s7 t7 ≠ Except.ok (s7, Outcome.skippedNoPrice)
    ∧ monitor_cycle 0 errFetch s7 [t7, t7b] = Except.error () := by decide

/-- C7 (amended): a price fetch that returns no price (empty payload) makes
the monitor skip the position with no state mutation, but a price fetch that
raises propagates out of the step (aborting the cycle) instead of skipping. -/
theorem price_fetch_failure_modes (now : ℤ) (fetch : String → FetchResult)
    (s : MonitorState) (t : Trade)
    (hcd : inCooldown now s.recentlyClosed t.instrument = false)
    (hsh : lookupKV s.sharedProfit t.instrument = none) :
    (fetch t.instrument = FetchResult.empty →
      monitor_trade_step now fetch s t = Except.ok (s, Outcome.skippedNoPrice))
    ∧ (fetch t.instrument = FetchResult.err →
      monitor_trade_step now fetch s t = Except.error ()) := by
  constructor <;> intro hf <;> simp [monitor_trade_step, determine_profit, hcd, hsh, hf]

/-- C7 witness: the empty-payload fetch outcome, at a concrete position. -/
theorem price_fetch_failure_modes_witness :
    inCooldown 3 emptyMonitorState.recentlyClosed wTrade7.instrument = false
    ∧ lookupKV emptyMonitorState.sharedProfit wTrade7.instrument = none
    ∧ (((fun _ => FetchResult.empty) : String → FetchResult) wTrade7.instrument
          = FetchResult.empty →
        monitor_trade_step 3 (fun _ => FetchResult.empty) emptyMonitorState wTrade7
          = Except.ok (emptyMonitorState, Outcome.skippedNoPrice))
    ∧ (((fun _ => FetchResult.empty) : String → FetchResult) wTrade7.instrument
          = FetchResult.err →
        monitor_trade_step 3 (fun _ => FetchResult.empty) emptyMonitorState wTrade7
          = Except.error ()) :=
  ⟨rfl, rfl,
   (price_fetch_failure_modes 3 (fun _ => FetchResult.empty) emptyMonitorState wTrade7
     rfl rfl).1,
   (price_fetch_failure_modes 3 (fun _ => FetchResult.empty) emptyMonitorState wTrade7
     rfl rfl).2⟩

/-- C8 counterexample: a raising price fetch inside the exit-monitor cycle is
not caught at any boundary — the cycle evaluates to the uncaught-exception
result, refuting "all failures are caught at the job boundary". -/
theorem uncaught_failure_in_monitor_cycle :
    monitor_cycle 5 errFetch emptyMonitorState [t8] = Except.error ()
    ∧ ∀ s os, monitor_cycle 5 errFetch emptyMonitorState [t8] ≠ Except.ok (s, os) := by
  refine ⟨by decide, ?_⟩
  intro s os h
  rw [show monitor_cycle 5 errFetch emptyMonitorState [t8] = Except.error () from by decide]
    at h
  exact Except.noConfusion h

/-- C8 (amended): the open-trades fetch catches its failures and returns the
empty list, and the heartbeat monitor catches heartbeat failures (disabling
trading and invoking reconnection), but a raising price fetch inside the
trailing-stop monitor cycle propagates uncaught and aborts the cycle. -/
theorem failure_boundary_partial :
    fetch_open_trades TradesFetchResult.err = []
    ∧ (∀ e : Bool, connection_monitor_step e false = (false, true))
    ∧ monitor_cycle 7 errFetch emptyMonitorState [t8b] = Except.error () :=
  ⟨rfl, fun _ => rfl, by decide⟩

/-- C9: a heartbeat failure while CONNECTED turns the `enabled` flag off, and
with the flag off both the entry job and the risk/exit job return immediately
with no order, no prediction request, no close and no state change; the
heartbeat thread itself survives (already-running work is not cancelled). -/
theorem heartbeat_gates_jobs (e : Bool) (recentlyClosed : List (String × ℤ))
    (now lastEntryTime : ℤ) (positions : List Trade) (signals : List Signal)
    (active : Option ActiveTrade) (prices : String → Option ℚ) :
    (check_connection true false).1 = false
    ∧ (connection_monitor_step e false).1 = false
    ∧ job_multiframe false recentlyClosed now positions signals = ⟨none, false⟩
    ∧ job_risk_management false active prices positions signals now lastEntryTime recentlyClosed
      = (active, none, ⟨none, false⟩, lastEntryTime) :=
  ⟨rfl, rfl, rfl, rfl⟩

/-- C10: a position whose instrument has an unexpired cooldown entry is not
evaluated at all by the exit monitor — the step returns the incoming state
unchanged with the cooldown-skip outcome, so no take-profit check, no peak
update and no trailing close can occur for it, whatever the feed says. -/
theorem cooldown_blocks_exit_evaluation (now ts : ℤ) (fetch : String → FetchResult)
    (s : MonitorState) (t : Trade)
    (h1 : lookupKV s.recentlyClosed t.instrument = some ts)
    (h2 : now - ts < COOLDOWN_PERIOD) :
    monitor_trade_step now fetch s t = Except.ok (s, Outcome.skippedCooldown) := by
  simp [monitor_trade_step, inCooldown, h1, h2]

/-- C10 witness: EUR_USD closed at time 50, evaluated at time 100 (cooldown
300 s): the position is skipped although the shared cache reports 80 pips,
beyond the take-profit target. -/
theorem cooldown_blocks_exit_evaluation_witness :
    lookupKV sW10.recentlyClosed wTrade10.instrument = some 50
    ∧ (100 : ℤ) - 50 < COOLDOWN_PERIOD
    ∧ monitor_trade_step 100 (fun _ => FetchResult.empty) sW10 wTrade10
      = Except.ok (sW10, Outcome.skippedCooldown) :=
  ⟨rfl, by decide,
   cooldown_blocks_exit_evaluation 100 50 (fun _ => FetchResult.empty) sW10 wTrade10
     rfl (by decide)⟩

end DatonBot
